import Mathlib

/-!
Shallow embedding of the temporal visibility and marker-reveal engine of the
campaign-viz repository (src/src/data/activities.ts, src/src/components/MapController.ts,
src/src/components/TimelineController.ts, src/src/state.ts, src/src/config.ts,
src/src/regions.ts, src/scripts/transform-export.ts).

Modelling conventions:
* JS numbers that carry fractional day offsets, coordinates, reveal fractions and
  timestamps are modelled as exact rationals.
* A calendar date string "YYYY-MM-DD" is modelled by its epoch day number (an Int);
  the corresponding Date object value dateObj.getTime() is the field dateObjMs,
  which for a date parsed from such a string equals date * MS_PER_DAY.
* Math.sin based pseudo randomness and the trigonometric coordinate blur are kept
  abstract: defs take the underlying numeric function as an explicit argument,
  so every definition stays executable once a concrete function is supplied.
* A JS Set of strings is modelled as a Finset String; a JS Map from string keys to
  marker entries is modelled as an association list in insertion order.
-/

namespace CampaignViz

/-- Config constant MS_PER_DAY from src/src/config.ts. -/
def MS_PER_DAY : Int := 86400000

/-- Config constant RECENT_MARKER_COUNT from src/src/config.ts. -/
def RECENT_MARKER_COUNT : Nat := 80

/-- Config constant BASE_DAYS_PER_MS from src/src/config.ts (1 / 800). -/
def BASE_DAYS_PER_MS : ℚ := 1 / 800

/-- Config constant UPDATE_INTERVAL_DAYS from src/src/config.ts. -/
def UPDATE_INTERVAL_DAYS : ℚ := 5 / 100

/-- Constant RESTART_DELAY_MS from src/src/components/TimelineController.ts. -/
def RESTART_DELAY_MS : ℚ := 1200

/-- Activity type union from src/src/types/activity.ts. -/
inductive ActivityType
  | HOUSE
  | POSTER
deriving DecidableEq, Repr

/-- String form of an activity type, as it appears in template literals. -/
def ActivityType.str : ActivityType → String
  | .HOUSE => "HOUSE"
  | .POSTER => "POSTER"

/-- ActivityFilter union from src/src/types/activity.ts: ALL or one concrete type. -/
inductive ActivityFilter
  | ALL
  | only (t : ActivityType)
deriving DecidableEq, Repr

/-- MarkerVariant union from src/src/types/activity.ts. -/
inductive MarkerVariant
  | recent
  | cumulative
deriving DecidableEq, Repr

/-- MarkerStyle union from src/src/components/MapController.ts. -/
inductive MarkerStyle
  | sunflower
  | simple
deriving DecidableEq, Repr

/-- RegionId union from src/src/regions.ts. -/
inductive RegionId
  | karlsruhe
  | bawu
deriving DecidableEq, Repr

/-- Field clusteringEnabled of REGIONS in src/src/regions.ts. -/
def RegionId.clusteringEnabled : RegionId → Bool
  | .karlsruhe => false
  | .bawu => true

/-- Field highlightRecentMarkers of REGIONS in src/src/regions.ts. -/
def RegionId.highlightRecentMarkers : RegionId → Bool
  | .karlsruhe => true
  | .bawu => false

/-- Interface Activity from src/src/data/activities.ts.  The date string is
modelled by its epoch day number. -/
structure Activity where
  date : Int
  ty : ActivityType
  lat : ℚ
  lng : ℚ
  count : Nat
deriving DecidableEq, Repr

/-- Interface ProcessedActivity from src/src/data/activities.ts. -/
structure ProcessedActivity where
  date : Int
  ty : ActivityType
  lat : ℚ
  lng : ℚ
  count : Nat
  blurredLat : ℚ
  blurredLng : ℚ
  dateObjMs : Int
  dayIndex : Int
  revealFraction : ℚ
deriving DecidableEq, Repr

/-- The original Activity fields carried over by the object spread in
processActivities. -/
def ProcessedActivity.original (a : ProcessedActivity) : Activity :=
  ⟨a.date, a.ty, a.lat, a.lng, a.count⟩

/-- Function seededRandom from src/src/utils/random.ts.  The Math.sin primitive
is abstracted as the argument jsSin. -/
def seededRandom (jsSin : ℚ → ℚ) (seed : ℚ) : ℚ :=
  let x : ℚ := jsSin (seed * 9999) * 10000
  x - ⌊x⌋

/-- Function processActivities from src/src/data/activities.ts.  jsSin abstracts
Math.sin inside seededRandom; blur abstracts blurCoordinates (whose trigonometry
is external to this core).  startDate is the epoch day of the dataset start date. -/
def processActivities (jsSin : ℚ → ℚ) (blur : ℚ → ℚ → ℚ × ℚ)
    (activities : List Activity) (alreadyBlurred : Bool) (startDate : Int) :
    List ProcessedActivity :=
  activities.enum.map (fun p =>
    let idx := p.1
    let activity := p.2
    let dateObjMs : Int := activity.date * MS_PER_DAY
    let dayIndex : Int :=
      max 0 (round ((((dateObjMs : ℚ) - (startDate * MS_PER_DAY : Int)) : ℚ) / (MS_PER_DAY : ℚ)))
    let revealFraction := seededRandom jsSin ((idx : ℚ) * 97 + activity.lat * 1000 + activity.lng * 1000)
    let coords := if alreadyBlurred then (activity.lat, activity.lng) else blur activity.lat activity.lng
    { date := activity.date
      ty := activity.ty
      lat := activity.lat
      lng := activity.lng
      count := activity.count
      blurredLat := coords.1
      blurredLng := coords.2
      dateObjMs := dateObjMs
      dayIndex := dayIndex
      revealFraction := revealFraction })

/-- Function isActivityVisible from src/src/data/activities.ts. -/
def isActivityVisible (activity : ProcessedActivity) (dayOffset : ℚ) : Bool :=
  let wholeDays : Int := ⌊dayOffset⌋
  let intraDay : ℚ := dayOffset - (wholeDays : ℚ)
  decide (activity.dayIndex < wholeDays) ||
    (decide (activity.dayIndex = wholeDays) && decide (intraDay ≥ activity.revealFraction))

/-- Function getVisibleActivitiesUpTo from src/src/data/activities.ts.  The
date-fns test isBefore(dateObj, upToDate) or isSameDay(dateObj, upToDate), for
midnight dates, is the epoch day comparison date ≤ upToDay. -/
def getVisibleActivitiesUpTo (activities : List ProcessedActivity)
    (upToDay : Int) (dayOffset : ℚ) : List ProcessedActivity :=
  activities.filter (fun activity =>
    isActivityVisible activity dayOffset && decide (activity.date ≤ upToDay))

/-- Function filterActivities from src/src/data/activities.ts. -/
def filterActivities (activities : List ProcessedActivity) (filter : ActivityFilter) :
    List ProcessedActivity :=
  match filter with
  | .ALL => activities
  | .only t => activities.filter (fun activity => decide (activity.ty = t))

/-- The slice of AppState (src/src/state.ts) consulted by the selector and the
reconciler: currentDate is an epoch day, the region stands for currentRegion. -/
structure AppState where
  currentDate : Int
  dayOffset : ℚ
  activityFilter : ActivityFilter
  useSunflowerMarkers : Bool
  currentRegion : RegionId
deriving DecidableEq, Repr

/-- Function selectVisibleActivities from src/src/data/activities.ts. -/
def selectVisibleActivities (activities : List ProcessedActivity) (state : AppState) :
    List ProcessedActivity :=
  let visible := getVisibleActivitiesUpTo activities state.currentDate state.dayOffset
  filterActivities visible state.activityFilter

/-- Number.prototype.toFixed 5 applied to a coordinate, modelled by the rounded
integer of 10^5 times the value: two coordinates render to the same fixed-point
string exactly when these integers agree (idealizing the tie-rounding of JS). -/
def toFixed5 (q : ℚ) : Int := round (q * 100000)

/-- Function createActivityKey from src/src/components/MapController.ts. -/
def createActivityKey (activity : ProcessedActivity) : String :=
  toString activity.date ++ "|" ++ activity.ty.str ++ "|" ++
    toString (toFixed5 activity.blurredLat) ++ "|" ++
    toString (toFixed5 activity.blurredLng) ++ "|" ++ toString activity.count

/-- Function getRevealTimestamp from src/src/components/MapController.ts:
dateObj.getTime() plus revealFraction * MS_PER_DAY. -/
def getRevealTimestamp (activity : ProcessedActivity) : ℚ :=
  (activity.dateObjMs : ℚ) + activity.revealFraction * (MS_PER_DAY : ℚ)

/-- Boolean comparator corresponding to the sort callback
(a, b) => getRevealTimestamp(a) - getRevealTimestamp(b): ascending by reveal
timestamp, stable on ties (Array.prototype.sort is stable, List.mergeSort is the
stable sort of this development). -/
def revealLE (a b : ProcessedActivity) : Bool :=
  decide (getRevealTimestamp a ≤ getRevealTimestamp b)

/-- Array.prototype.slice with the single negative argument -n, as used in
sortedByReveal.slice(-RECENT_MARKER_COUNT): for n = 0 the argument is 0 and the
whole array is returned, otherwise the last min(n, length) elements. -/
def sliceNeg (n : Nat) (l : List ProcessedActivity) : List ProcessedActivity :=
  if n = 0 then l else l.drop (l.length - n)

/-- The cache-free body of computeRecentActivityKeys from
src/src/components/MapController.ts, with the RECENT_MARKER_COUNT constant as
the argument n: sort the visible activities ascending by reveal timestamp with a
stable sort, slice the last n, and collect their keys into a set. -/
def computeRecentActivityKeysPure (n : Nat) (visibleActivities : List ProcessedActivity) :
    Finset String :=
  let sortedByReveal := visibleActivities.mergeSort revealLE
  ((sliceNeg n sortedByReveal).map createActivityKey).toFinset

/-- The module-level cache of MapController.ts: cachedRecentKeys and
cachedVisibleCount. -/
structure RecentCache where
  cachedRecentKeys : Option (Finset String)
  cachedVisibleCount : Int
deriving DecidableEq

/-- The cache value installed by invalidateRecentKeysCache (and by the initial
module state) in src/src/components/MapController.ts. -/
def invalidatedCache : RecentCache := ⟨none, -1⟩

/-- Function computeRecentActivityKeys from src/src/components/MapController.ts,
with the module-level cache passed and returned explicitly. -/
def computeRecentActivityKeys (n : Nat) (cache : RecentCache)
    (visibleActivities : List ProcessedActivity) : Finset String × RecentCache :=
  if visibleActivities.isEmpty then
    (∅, ⟨none, 0⟩)
  else
    match cache.cachedRecentKeys with
    | some keys =>
      if (visibleActivities.length : Int) = cache.cachedVisibleCount then
        (keys, cache)
      else
        let result := computeRecentActivityKeysPure n visibleActivities
        (result, ⟨some result, (visibleActivities.length : Int)⟩)
    | none =>
      let result := computeRecentActivityKeysPure n visibleActivities
      (result, ⟨some result, (visibleActivities.length : Int)⟩)

/-- Type MarkerDescriptor from src/src/components/MapController.ts. -/
structure MarkerDescriptor where
  activity : ProcessedActivity
  key : String
  variant : MarkerVariant
deriving DecidableEq, Repr

/-- Function shouldHighlightRecentMarkers from src/src/components/MapController.ts. -/
def shouldHighlightRecentMarkers (state : AppState) : Bool :=
  state.currentRegion.highlightRecentMarkers

/-- Function buildMarkerDescriptors from src/src/components/MapController.ts,
threading the recent-keys cache. -/
def buildMarkerDescriptors (state : AppState) (cache : RecentCache)
    (activities : List ProcessedActivity) : List MarkerDescriptor × RecentCache :=
  let highlight := shouldHighlightRecentMarkers state
  let recentKeysAndCache : Option (Finset String) × RecentCache :=
    if highlight then
      let rc := computeRecentActivityKeys RECENT_MARKER_COUNT cache activities
      (some rc.1, rc.2)
    else (none, cache)
  let recentKeys := recentKeysAndCache.1
  let descriptors := activities.map (fun activity =>
    let key := createActivityKey activity
    let variant : MarkerVariant :=
      match recentKeys with
      | some keys => if key ∈ keys then .recent else .cumulative
      | none => .cumulative
    ⟨activity, key, variant⟩)
  (descriptors, recentKeysAndCache.2)

/-- Type MarkerEntry from src/src/components/MapController.ts; the L.Marker
handle is modelled by the position it was created at. -/
structure MarkerEntry where
  markerLat : ℚ
  markerLng : ℚ
  variant : MarkerVariant
  style : MarkerStyle
deriving DecidableEq, Repr

/-- The markerRegistry Map of MapController.ts, as an association list in
insertion order with string keys. -/
abbrev Registry := List (String × MarkerEntry)

/-- Map.prototype.get on the registry. -/
def registryGet (registry : Registry) (key : String) : Option MarkerEntry :=
  (registry.find? (fun p => p.1 = key)).map (fun p => p.2)

/-- Map.prototype.set on the registry: replace in place when the key exists,
append otherwise. -/
def registrySet (registry : Registry) (key : String) (entry : MarkerEntry) : Registry :=
  if registry.any (fun p => p.1 = key) then
    registry.map (fun p => if p.1 = key then (key, entry) else p)
  else
    registry ++ [(key, entry)]

/-- Map.prototype.delete on the registry. -/
def registryDelete (registry : Registry) (key : String) : Registry :=
  registry.filter (fun p => p.1 ≠ key)

/-- The key set of the registry. -/
def registryKeys (registry : Registry) : Finset String :=
  (registry.map (fun p => p.1)).toFinset

/-- Function createMarker from src/src/components/MapController.ts, reduced to
the data the registry retains about the visual handle. -/
def createMarker (activity : ProcessedActivity) : ℚ × ℚ :=
  (activity.blurredLat, activity.blurredLng)

/-- Function syncMarker from src/src/components/MapController.ts, restricted to
its effect on the registry; the returned flag is the created field of its
result (layer mutations are external rendering effects). -/
def syncMarker (registry : Registry) (descriptor : MarkerDescriptor)
    (markerStyle : MarkerStyle) : Registry × Bool :=
  let existing := registryGet registry descriptor.key
  match existing with
  | none =>
    let marker := createMarker descriptor.activity
    (registrySet registry descriptor.key
      ⟨marker.1, marker.2, descriptor.variant, markerStyle⟩, true)
  | some entry =>
    if entry.style ≠ markerStyle then
      let removed := registryDelete registry descriptor.key
      let marker := createMarker descriptor.activity
      (registrySet removed descriptor.key
        ⟨marker.1, marker.2, descriptor.variant, markerStyle⟩, true)
    else if entry.variant ≠ descriptor.variant then
      (registrySet registry descriptor.key { entry with variant := descriptor.variant }, false)
    else
      (registry, false)

/-- Function removeStaleMarkers from src/src/components/MapController.ts. -/
def removeStaleMarkers (registry : Registry) (visibleKeys : Finset String) : Registry :=
  registry.filter (fun p => decide (p.1 ∈ visibleKeys))

/-- Function syncLayerGroup from src/src/components/MapController.ts: sync every
descriptor, collect the visible keys, then drop stale registry entries. -/
def syncLayerGroup (registry : Registry) (descriptors : List MarkerDescriptor)
    (markerStyle : MarkerStyle) : Registry :=
  let step := fun (acc : Registry × Finset String) (descriptor : MarkerDescriptor) =>
    ((syncMarker acc.1 descriptor markerStyle).1, insert descriptor.key acc.2)
  let folded := descriptors.foldl step (registry, ∅)
  removeStaleMarkers folded.1 folded.2

/-- Function syncClusterGroup from src/src/components/MapController.ts: the same
registry discipline, with created markers batched for addLayers (a rendering
effect that does not touch the registry). -/
def syncClusterGroup (registry : Registry) (descriptors : List MarkerDescriptor)
    (markerStyle : MarkerStyle) : Registry :=
  let step := fun (acc : Registry × Finset String × List (ℚ × ℚ)) (descriptor : MarkerDescriptor) =>
    let r := syncMarker acc.1 descriptor markerStyle
    let pendingAdd := if r.2 then acc.2.2 ++ [createMarker descriptor.activity] else acc.2.2
    (r.1, insert descriptor.key acc.2.1, pendingAdd)
  let folded := descriptors.foldl step (registry, ∅, [])
  removeStaleMarkers folded.1 folded.2.1

/-- Function getMarkerStyle from src/src/components/MapController.ts. -/
def getMarkerStyle (state : AppState) : MarkerStyle :=
  if state.useSunflowerMarkers then .sunflower else .simple

/-- Function updateMapVisualization from src/src/components/MapController.ts,
with the map context reduced to its clusteringEnabled flag and the module state
(registry, recent-keys cache) passed and returned explicitly.  Returns the
visible activities exactly as the source does. -/
def updateMapVisualization (activities : List ProcessedActivity) (state : AppState)
    (clusteringEnabled : Bool) (registry : Registry) (cache : RecentCache) :
    List ProcessedActivity × Registry × RecentCache :=
  let visibleActivities := selectVisibleActivities activities state
  if visibleActivities.isEmpty then
    (visibleActivities, [], cache)
  else
    let markerStyle := getMarkerStyle state
    let built := buildMarkerDescriptors state cache visibleActivities
    let registry1 :=
      if clusteringEnabled then
        syncClusterGroup registry built.1 markerStyle
      else
        syncLayerGroup registry built.1 markerStyle
    (visibleActivities, registry1, built.2)

/-- The date-fns addDays(start, amount) call on a midnight start with amount ≥ 0,
observed at calendar-day granularity: the resulting calendar day is
start + floor(amount). -/
def addDaysDay (start : Int) (amount : ℚ) : Int := start + ⌊amount⌋

/-- The controller-visible module state of MapController.ts plus the app state:
the marker registry, the recent-keys cache and the clusteringEnabled flag of the
map context. -/
structure ControllerState where
  app : AppState
  clusteringEnabled : Bool
  registry : Registry
  cache : RecentCache
deriving DecidableEq

/-- Function refreshVisualization from src/src/components/TimelineController.ts,
restricted to the core pipeline call updateMapVisualization (date display and
face celebration are presentation effects). -/
def refreshVisualization (activities : List ProcessedActivity) (cs : ControllerState) :
    ControllerState × List ProcessedActivity :=
  let r := updateMapVisualization activities cs.app cs.clusteringEnabled cs.registry cs.cache
  ({ cs with registry := r.2.1, cache := r.2.2 }, r.1)

/-- Function handleSliderChange from src/src/components/TimelineController.ts:
invalidate the recent-keys cache, set currentDate and dayOffset from the slider
value, then refresh. -/
def handleSliderChange (activities : List ProcessedActivity) (start : Int)
    (sliderValue : ℚ) (cs : ControllerState) : ControllerState × List ProcessedActivity :=
  let cs1 : ControllerState :=
    { cs with
      cache := invalidatedCache
      app := { cs.app with currentDate := addDaysDay start sliderValue, dayOffset := sliderValue } }
  refreshVisualization activities cs1

/-- The activity-filter change listener wired by wireActivityFilter in
src/src/components/TimelineController.ts: invalidate the recent-keys cache, set
the filter, then refresh. -/
def handleActivityFilterChange (activities : List ProcessedActivity)
    (filter : ActivityFilter) (cs : ControllerState) :
    ControllerState × List ProcessedActivity :=
  let cs1 : ControllerState :=
    { cs with
      cache := invalidatedCache
      app := { cs.app with activityFilter := filter } }
  refreshVisualization activities cs1

/-- The playback-clock slice of AppState (src/src/state.ts) together with the
module-level lastUpdateInterval of TimelineController.ts.  The
animationFrameId is reduced to whether a frame callback is scheduled. -/
structure ClockState where
  startDate : Int
  currentDate : Int
  dayOffset : ℚ
  isPlaying : Bool
  playbackSpeed : ℚ
  frameScheduled : Bool
  lastFrameTime : ℚ
  lastUpdateInterval : Int
deriving DecidableEq, Repr

/-- Function resetToStart from src/src/state.ts. -/
def resetToStart (s : ClockState) : ClockState :=
  { s with
    currentDate := s.startDate
    dayOffset := 0
    isPlaying := false
    frameScheduled := false
    lastFrameTime := 0 }

/-- The state update performed by startPlayback in
src/src/components/TimelineController.ts before it enters animate. -/
def startPlaybackState (now : ℚ) (s : ClockState) : ClockState :=
  { s with isPlaying := true, lastFrameTime := now }

/-- The state update performed by stopPlayback in
src/src/components/TimelineController.ts: cancel the scheduled frame, leave the
playing state. -/
def stopPlaybackState (s : ClockState) : ClockState :=
  { s with isPlaying := false, frameScheduled := false }

/-- The observable outcome of one animate() tick: the new clock state, how many
times refreshVisualization ran, whether the end-of-range restart timeout was
scheduled (with its delay), and whether a next animation frame was requested. -/
structure AnimateResult where
  state : ClockState
  renderCount : Nat
  restartTimeout : Option ℚ
  nextFrameRequested : Bool
deriving DecidableEq, Repr

/-- Function animate from src/src/components/TimelineController.ts, as a single
tick observed at wall-clock time now, with totalDays the full day range of the
dataset. -/
def animateTick (totalDays : Int) (now : ℚ) (s : ClockState) : AnimateResult :=
  if !s.isPlaying then ⟨s, 0, none, false⟩
  else
    let deltaMs := now - s.lastFrameTime
    let daysPerMs := s.playbackSpeed * BASE_DAYS_PER_MS
    let daysToAdvance := deltaMs * daysPerMs
    let newDayOffset := s.dayOffset + daysToAdvance
    let s1 := { s with lastFrameTime := now }
    if newDayOffset ≥ (totalDays : ℚ) then
      let s2 := { s1 with dayOffset := (totalDays : ℚ), currentDate := s.startDate + totalDays }
      let s3 := stopPlaybackState s2
      ⟨s3, 1, some RESTART_DELAY_MS, false⟩
    else
      let currentInterval : Int := ⌊newDayOffset / UPDATE_INTERVAL_DAYS⌋
      let s2 := { s1 with dayOffset := newDayOffset, currentDate := addDaysDay s.startDate newDayOffset }
      if currentInterval ≠ s.lastUpdateInterval then
        ⟨{ s2 with lastUpdateInterval := currentInterval, frameScheduled := true }, 1, none, true⟩
      else
        ⟨{ s2 with frameScheduled := true }, 0, none, true⟩

/-- The restart callback scheduled by animate at the end of the range
(src/src/components/TimelineController.ts): resetToStart, clear the update
interval, invalidate the recent-keys cache, refresh once, then startPlayback
(which re-enters animate).  now is the wall-clock time when the timeout fires;
the final flag records that animate is re-entered. -/
def restartCallback (now : ℚ) (s : ClockState) (_cache : RecentCache) :
    ClockState × RecentCache × Nat × Bool :=
  let s1 := resetToStart s
  let s2 := { s1 with lastUpdateInterval := -1 }
  let cache1 := invalidatedCache
  let s3 := startPlaybackState now s2
  (s3, cache1, 1, true)

/-- Interface ApiRecord from src/scripts/transform-export.ts, reduced to the
fields transformRecord reads.  The coords array is [lng, lat]; a missing or
non-numeric coordinate is modelled by the JS-falsy value 0.  house carries the
optional countClosedDoors and countOpenedDoors fields when present. -/
structure ApiRecord where
  ty : String
  coordsLng : ℚ
  coordsLat : ℚ
  createdAtDate : Int
  house : Option (Option Nat × Option Nat)
deriving DecidableEq, Repr

/-- Function normalizeType from src/scripts/transform-export.ts. -/
def normalizeType (raw : String) : Option ActivityType :=
  if raw = "DOOR" then some .HOUSE
  else if raw = "FLYER" then none
  else if raw = "POSTER" then some .POSTER
  else if raw = "HOUSE" then some .HOUSE
  else none

/-- Function transformRecord from src/scripts/transform-export.ts.  The second
component is the console output the call produces: the current source contains
no logging statement on any path, so every branch yields the empty log. -/
def transformRecord (blur : ℚ → ℚ → ℚ × ℚ) (shouldBlur : Bool) (record : ApiRecord) :
    Option Activity × List String :=
  match normalizeType record.ty with
  | none => (none, [])
  | some t =>
    let lng := record.coordsLng
    let lat := record.coordsLat
    if lat = 0 ∨ lng = 0 then (none, [])
    else
      let coords := if shouldBlur then blur lat lng else (lat, lng)
      let date := record.createdAtDate
      let houseCounts : Nat :=
        match record.house with
        | some h => h.1.getD 0 + h.2.getD 0
        | none => 0
      let count := max 1 houseCounts
      (some { date := date, ty := t, lat := coords.1, lng := coords.2, count := count }, [])

/-- Function processFile from src/scripts/transform-export.ts, without the file
read: map transformRecord over the records and keep the non-null results, while
concatenating the per-record console output. -/
def processFile (blur : ℚ → ℚ → ℚ × ℚ) (shouldBlur : Bool) (records : List ApiRecord) :
    List Activity × List String :=
  let mapped := records.map (transformRecord blur shouldBlur)
  (mapped.filterMap (fun p => p.1), mapped.foldl (fun acc p => acc ++ p.2) [])

/-- Modelled from the spec: the synthetic reveal timestamp of section 4.4,
record.dayIndex * dayLengthMs + record.revealFraction * dayLengthMs. -/
def specRevealTimestamp (a : ProcessedActivity) : ℚ :=
  (a.dayIndex : ℚ) * (MS_PER_DAY : ℚ) + a.revealFraction * (MS_PER_DAY : ℚ)

/-- Comparator of the spec reveal timestamps. -/
def specRevealLE (a b : ProcessedActivity) : Bool :=
  decide (specRevealTimestamp a ≤ specRevealTimestamp b)

/-- Modelled from the spec: an ascending stable sort by the spec reveal
timestamp, written canonically by decorating each record with its original
position and sorting by timestamp with ties broken by position; equal-timestamp
records therefore stay in input order by construction. -/
def specStableSortByReveal (visible : List ProcessedActivity) : List ProcessedActivity :=
  (visible.enum.mergeSort (fun x y =>
    decide (specRevealTimestamp x.2 < specRevealTimestamp y.2 ∨
      (specRevealTimestamp x.2 = specRevealTimestamp y.2 ∧ x.1 ≤ y.1)))).map (fun p => p.2)

/-- Modelled from the spec: the last n elements of a list. -/
def specTakeLast (n : Nat) (l : List ProcessedActivity) : List ProcessedActivity :=
  l.drop (l.length - n)

/-- Modelled from the spec: classifyRecent of section 4.4 — stable-sort the
visible records ascending by the spec reveal timestamp, take the last n, and
collect their identity keys. -/
def specClassifyRecent (n : Nat) (visible : List ProcessedActivity) : Finset String :=
  ((specTakeLast n (specStableSortByReveal visible)).map createActivityKey).toFinset

/-- A ProcessedActivity as actually produced by processActivities from a raw
record dated on or after the dataset start: dateObjMs is the epoch time of its
date and dayIndex is the unclamped day difference from the start. -/
def WellFormedFor (startDate : Int) (a : ProcessedActivity) : Prop :=
  a.dateObjMs = a.date * MS_PER_DAY ∧ startDate ≤ a.date ∧ a.dayIndex = a.date - startDate

/-- A full replay of the pipeline from a fresh initial module state: process the
raw dataset once, then evaluate the select → classify → reconcile cycle at each
day offset in turn through the slider path, recording each visible set and each
reconciled registry (whose entries carry the recent/cumulative classification). -/
def replayPipeline (jsSin : ℚ → ℚ) (blur : ℚ → ℚ → ℚ × ℚ) (raw : List Activity)
    (alreadyBlurred : Bool) (start : Int) (initApp : AppState) (clustering : Bool)
    (offsets : List ℚ) : List (List ProcessedActivity × Registry) :=
  let processed := processActivities jsSin blur raw alreadyBlurred start
  let init : ControllerState := ⟨initApp, clustering, [], invalidatedCache⟩
  (offsets.foldl (fun (acc : ControllerState × List (List ProcessedActivity × Registry)) off =>
    let r := handleSliderChange processed start off acc.1
    (r.1, acc.2 ++ [(r.2, r.1.registry)])) (init, [])).2

/-- Epoch day of the calendar date 2026-01-01, the dataset start of the
end-to-end scenario in the spec (section 8, property 6). -/
def scnStart : Int := 20454

/-- Scenario record A: date 2026-01-01, revealFraction 0.2 (count 1 to keep the
three identity keys distinct). -/
def recA : ProcessedActivity :=
  { date := scnStart, ty := .HOUSE, lat := 49, lng := 8, count := 1,
    blurredLat := 49, blurredLng := 8, dateObjMs := scnStart * MS_PER_DAY,
    dayIndex := 0, revealFraction := 1/5 }

/-- Scenario record B: date 2026-01-01, revealFraction 0.8, count 2. -/
def recB : ProcessedActivity :=
  { date := scnStart, ty := .HOUSE, lat := 49, lng := 8, count := 2,
    blurredLat := 49, blurredLng := 8, dateObjMs := scnStart * MS_PER_DAY,
    dayIndex := 0, revealFraction := 4/5 }

/-- Scenario record C: date 2026-01-02, revealFraction 0.1, count 3. -/
def recC : ProcessedActivity :=
  { date := scnStart + 1, ty := .HOUSE, lat := 49, lng := 8, count := 3,
    blurredLat := 49, blurredLng := 8, dateObjMs := (scnStart + 1) * MS_PER_DAY,
    dayIndex := 1, revealFraction := 1/10 }

/-- The scenario dataset. -/
def scnActivities : List ProcessedActivity := [recA, recB, recC]

/-- The scenario app state at a given day offset: currentDate follows the
slider path, filter ALL, region karlsruhe (recent highlighting on). -/
def scnState (dayOffset : ℚ) : AppState :=
  { currentDate := addDaysDay scnStart dayOffset
    dayOffset := dayOffset
    activityFilter := .ALL
    useSunflowerMarkers := true
    currentRegion := .karlsruhe }

/-! ## Theorems -/

/-- C2: for every processed activity record and every dayOffset ≥ 0,
isVisible(record, dayOffset) is true iff record.dayIndex < floor(dayOffset), or
record.dayIndex = floor(dayOffset) and the fractional remainder
dayOffset - floor(dayOffset) is ≥ record.revealFraction. -/
theorem isActivityVisible_characterization (a : ProcessedActivity) (dayOffset : ℚ)
    (h : 0 ≤ dayOffset) :
    isActivityVisible a dayOffset = true ↔
      (a.dayIndex < ⌊dayOffset⌋ ∨
        (a.dayIndex = ⌊dayOffset⌋ ∧ dayOffset - (⌊dayOffset⌋ : ℚ) ≥ a.revealFraction)) := by
  simp [isActivityVisible]

/-- Witness for C2: record A of the scenario is visible at dayOffset 1/2, and
the characterization agrees. -/
theorem isActivityVisible_characterization_witness :
    (0 : ℚ) ≤ 1/2 ∧
      (isActivityVisible recA (1/2) = true ↔
        (recA.dayIndex < ⌊(1/2 : ℚ)⌋ ∨
          (recA.dayIndex = ⌊(1/2 : ℚ)⌋ ∧ (1/2 : ℚ) - (⌊(1/2 : ℚ)⌋ : ℚ) ≥ recA.revealFraction))) :=
  ⟨by norm_num, isActivityVisible_characterization recA (1/2) (by norm_num)⟩

/-- C7: visibility is monotone in time: if a record is visible at dayOffset1 and
dayOffset1 < dayOffset2, it is visible at dayOffset2. -/
theorem isActivityVisible_monotone (a : ProcessedActivity) (d1 d2 : ℚ)
    (hlt : d1 < d2) (hvis : isActivityVisible a d1 = true) :
    isActivityVisible a d2 = true := by
  simp only [isActivityVisible, Bool.or_eq_true, Bool.and_eq_true,
    decide_eq_true_eq, ge_iff_le] at hvis ⊢
  have hfl : ⌊d1⌋ ≤ ⌊d2⌋ := Int.floor_le_floor hlt.le
  rcases hvis with h1 | ⟨h2, h3⟩
  · exact Or.inl (lt_of_lt_of_le h1 hfl)
  · rcases lt_or_eq_of_le hfl with hlt2 | heq
    · exact Or.inl (by omega)
    · refine Or.inr ⟨by omega, ?_⟩
      have : d1 - (⌊d1⌋ : ℚ) ≤ d2 - (⌊d2⌋ : ℚ) := by
        rw [← heq]
        linarith
      linarith

/-- Witness for C7: record A is visible at 1/2 and stays visible at 3/4. -/
theorem isActivityVisible_monotone_witness :
    isActivityVisible recA (3/4) = true :=
  isActivityVisible_monotone recA (1/2) (3/4) (by norm_num)
    (by norm_num [isActivityVisible, recA])

/-- C3 counterexample: in the end-to-end scenario, record C (dayIndex 1,
revealFraction 0.1) is NOT visible at dayOffset 1.05, because the fractional
remainder 0.05 is below its reveal fraction 0.1; the visible set at 1.05 is
[A, B], not A, B, C as the claim states. -/
theorem scenario_dayOffset_105_counterexample :
    isActivityVisible recC (105/100) = false ∧
      selectVisibleActivities scnActivities (scnState (105/100)) = [recA, recB] := by
  constructor
  · norm_num [isActivityVisible, recC, scnStart]
  · norm_num [selectVisibleActivities, getVisibleActivitiesUpTo, filterActivities,
      scnActivities, scnState, addDaysDay, isActivityVisible, recA, recB, recC, scnStart,
      List.filter]

/-- C3 amended: visible at 0.5 is [A]; at 0.9 is [A, B]; at 1.05 still [A, B]
(C appears only once the fractional remainder reaches its reveal fraction 0.1,
at dayOffset 1.1); at 1.1 the visible set is [A, B, C], and with recent-window
size 1 the recent classification is the key of C while A and B classify
cumulative. -/
theorem scenario_visibility_and_recency :
    selectVisibleActivities scnActivities (scnState (1/2)) = [recA] ∧
      selectVisibleActivities scnActivities (scnState (9/10)) = [recA, recB] ∧
      selectVisibleActivities scnActivities (scnState (105/100)) = [recA, recB] ∧
      selectVisibleActivities scnActivities (scnState (11/10)) = [recA, recB, recC] ∧
      computeRecentActivityKeysPure 1 scnActivities = {createActivityKey recC} ∧
      scnActivities.filter
        (fun a => !(decide (createActivityKey a ∈ computeRecentActivityKeysPure 1 scnActivities)))
        = [recA, recB] := by
  have hsorted : List.Pairwise (fun a b => revealLE a b = true) scnActivities := by
    norm_num [scnActivities, revealLE, getRevealTimestamp, recA, recB, recC, scnStart, MS_PER_DAY]
  have hsort : scnActivities.mergeSort revealLE = scnActivities :=
    List.mergeSort_of_sorted hsorted
  have hpure : computeRecentActivityKeysPure 1 scnActivities = {createActivityKey recC} := by
    rw [computeRecentActivityKeysPure, hsort]
    norm_num [scnActivities, sliceNeg]
  have hAC : createActivityKey recA ≠ createActivityKey recC := by
    have h49 : toFixed5 (49 : ℚ) = 4900000 := by norm_num [toFixed5, round_eq]
    have h8 : toFixed5 (8 : ℚ) = 800000 := by norm_num [toFixed5, round_eq]
    simp only [createActivityKey, recA, recC, ActivityType.str, scnStart, h49, h8]
    decide
  have hBC : createActivityKey recB ≠ createActivityKey recC := by
    have h49 : toFixed5 (49 : ℚ) = 4900000 := by norm_num [toFixed5, round_eq]
    have h8 : toFixed5 (8 : ℚ) = 800000 := by norm_num [toFixed5, round_eq]
    simp only [createActivityKey, recB, recC, ActivityType.str, scnStart, h49, h8]
    decide
  refine ⟨?_, ?_, ?_, ?_, hpure, ?_⟩
  · norm_num [selectVisibleActivities, getVisibleActivitiesUpTo, filterActivities,
      scnActivities, scnState, addDaysDay, isActivityVisible, recA, recB, recC, scnStart,
      List.filter]
  · norm_num [selectVisibleActivities, getVisibleActivitiesUpTo, filterActivities,
      scnActivities, scnState, addDaysDay, isActivityVisible, recA, recB, recC, scnStart,
      List.filter]
  · norm_num [selectVisibleActivities, getVisibleActivitiesUpTo, filterActivities,
      scnActivities, scnState, addDaysDay, isActivityVisible, recA, recB, recC, scnStart,
      List.filter]
  · norm_num [selectVisibleActivities, getVisibleActivitiesUpTo, filterActivities,
      scnActivities, scnState, addDaysDay, isActivityVisible, recA, recB, recC, scnStart,
      List.filter]
  · rw [hpure]
    simp [scnActivities, List.filter, hAC, hBC]

/-- Helper: a successful registry lookup means the key is present. -/
theorem mem_registryKeys_of_get (registry : Registry) (key : String) (entry : MarkerEntry)
    (h : registryGet registry key = some entry) : key ∈ registryKeys registry := by
  unfold registryGet at h
  rcases Option.map_eq_some'.mp h with ⟨p, hfind, hp⟩
  have hmem := List.mem_of_find?_eq_some hfind
  have hkey := List.find?_some hfind
  simp only [decide_eq_true_eq] at hkey
  simp only [registryKeys, List.mem_toFinset, List.mem_map]
  exact ⟨p, hmem, hkey⟩

/-- Helper: registrySet inserts the key into the key set. -/
theorem registryKeys_registrySet (registry : Registry) (key : String) (entry : MarkerEntry) :
    registryKeys (registrySet registry key entry) = insert key (registryKeys registry) := by
  unfold registrySet
  by_cases hany : registry.any (fun p => p.1 = key) = true
  · rw [if_pos hany]
    have hmem : key ∈ registryKeys registry := by
      rcases List.any_eq_true.mp hany with ⟨p, hmem, hp⟩
      simp only [decide_eq_true_eq] at hp
      simp only [registryKeys, List.mem_toFinset, List.mem_map]
      exact ⟨p, hmem, hp⟩
    have hmap : (registry.map (fun p => if p.1 = key then (key, entry) else p)).map Prod.fst
        = registry.map Prod.fst := by
      rw [List.map_map]
      apply List.map_congr_left
      intro p _
      by_cases hp : p.1 = key
      · simp [hp]
      · simp [hp]
    rw [registryKeys, hmap, ← registryKeys]
    exact (Finset.insert_eq_self.mpr hmem).symm
  · rw [if_neg hany]
    simp only [registryKeys, List.map_append, List.toFinset_append]
    simp [Finset.union_comm, Finset.insert_eq]

/-- Helper: syncMarker leaves exactly the descriptor key inserted in the key
set, in every branch. -/
theorem registryKeys_syncMarker (registry : Registry) (descriptor : MarkerDescriptor)
    (markerStyle : MarkerStyle) :
    registryKeys (syncMarker registry descriptor markerStyle).1
      = insert descriptor.key (registryKeys registry) := by
  unfold syncMarker
  cases hget : registryGet registry descriptor.key with
  | none =>
    simp only [registryKeys_registrySet]
  | some entry =>
    have hmem : descriptor.key ∈ registryKeys registry :=
      mem_registryKeys_of_get registry descriptor.key entry hget
    by_cases hstyle : entry.style ≠ markerStyle
    · simp only [if_pos hstyle, registryKeys_registrySet]
      ext s
      simp only [Finset.mem_insert, registryDelete, registryKeys, List.mem_toFinset,
        List.mem_map, List.mem_filter, decide_eq_true_eq]
      constructor
      · rintro (h | ⟨p, ⟨hp, hne⟩, hs⟩)
        · exact Or.inl h
        · exact Or.inr ⟨p, hp, hs⟩
      · rintro (h | ⟨p, hp, hs⟩)
        · exact Or.inl h
        · by_cases hk : s = descriptor.key
          · exact Or.inl hk
          · exact Or.inr ⟨p, ⟨hp, by rw [hs]; exact hk⟩, hs⟩
    · simp only [if_neg hstyle]
      by_cases hvar : entry.variant ≠ descriptor.variant
      · simp only [if_pos hvar, registryKeys_registrySet]
      · simp only [if_neg hvar]
        exact (Finset.insert_eq_self.mpr hmem).symm

/-- Helper: the key set after removeStaleMarkers is the old key set intersected
with the visible keys. -/
theorem registryKeys_removeStaleMarkers (registry : Registry) (visibleKeys : Finset String) :
    registryKeys (removeStaleMarkers registry visibleKeys)
      = registryKeys registry ∩ visibleKeys := by
  ext s
  simp only [removeStaleMarkers, registryKeys, Finset.mem_inter, List.mem_toFinset,
    List.mem_map, List.mem_filter, decide_eq_true_eq]
  constructor
  · rintro ⟨p, ⟨hp, hvk⟩, hs⟩
    exact ⟨⟨p, hp, hs⟩, by rw [← hs]; exact hvk⟩
  · rintro ⟨⟨p, hp, hs⟩, hvk⟩
    exact ⟨p, ⟨hp, by rw [hs]; exact hvk⟩, hs⟩

/-- Helper: the layer-group fold accumulates exactly the descriptor keys, both
into the registry key set and into the visible-key set. -/
theorem syncLayerGroup_fold_keys (markerStyle : MarkerStyle) :
    ∀ (descriptors : List MarkerDescriptor) (registry : Registry) (acc : Finset String),
      registryKeys (descriptors.foldl
          (fun (acc : Registry × Finset String) d =>
            ((syncMarker acc.1 d markerStyle).1, insert d.key acc.2))
          (registry, acc)).1
        = registryKeys registry ∪ (descriptors.map (fun d => d.key)).toFinset ∧
      (descriptors.foldl
          (fun (acc : Registry × Finset String) d =>
            ((syncMarker acc.1 d markerStyle).1, insert d.key acc.2))
          (registry, acc)).2
        = acc ∪ (descriptors.map (fun d => d.key)).toFinset := by
  intro descriptors
  induction descriptors with
  | nil => intro registry acc; simp
  | cons d ds ih =>
    intro registry acc
    simp only [List.foldl_cons, List.map_cons, List.toFinset_cons]
    rcases ih (syncMarker registry d markerStyle).1 (insert d.key acc) with ⟨h1, h2⟩
    constructor
    · rw [h1, registryKeys_syncMarker]
      ext s
      simp only [Finset.mem_union, Finset.mem_insert, List.mem_toFinset]
      tauto
    · rw [h2]
      ext s
      simp only [Finset.mem_union, Finset.mem_insert, List.mem_toFinset]
      tauto

/-- Helper: the cluster-group fold computes the same registry and visible keys
as the layer-group fold (the pending-add batch only feeds the rendering layer). -/
theorem syncClusterGroup_fold_keys (markerStyle : MarkerStyle) :
    ∀ (descriptors : List MarkerDescriptor) (registry : Registry) (acc : Finset String)
      (pending : List (ℚ × ℚ)),
      (descriptors.foldl
          (fun (acc : Registry × Finset String × List (ℚ × ℚ)) d =>
            let r := syncMarker acc.1 d markerStyle
            let pendingAdd := if r.2 then acc.2.2 ++ [createMarker d.activity] else acc.2.2
            (r.1, insert d.key acc.2.1, pendingAdd))
          (registry, acc, pending)).1
        = (descriptors.foldl
            (fun (acc : Registry × Finset String) d =>
              ((syncMarker acc.1 d markerStyle).1, insert d.key acc.2))
            (registry, acc)).1 ∧
      (descriptors.foldl
          (fun (acc : Registry × Finset String × List (ℚ × ℚ)) d =>
            let r := syncMarker acc.1 d markerStyle
            let pendingAdd := if r.2 then acc.2.2 ++ [createMarker d.activity] else acc.2.2
            (r.1, insert d.key acc.2.1, pendingAdd))
          (registry, acc, pending)).2.1
        = (descriptors.foldl
            (fun (acc : Registry × Finset String) d =>
              ((syncMarker acc.1 d markerStyle).1, insert d.key acc.2))
            (registry, acc)).2 := by
  intro descriptors
  induction descriptors with
  | nil => intro registry acc pending; exact ⟨rfl, rfl⟩
  | cons d ds ih =>
    intro registry acc pending
    simp only [List.foldl_cons]
    exact ih (syncMarker registry d markerStyle).1 (insert d.key acc) _

/-- Helper: the descriptor keys built for a visible list are exactly its
identity keys, in order. -/
theorem buildMarkerDescriptors_keys (state : AppState) (cache : RecentCache)
    (activities : List ProcessedActivity) :
    ((buildMarkerDescriptors state cache activities).1.map (fun d => d.key))
      = activities.map createActivityKey := by
  unfold buildMarkerDescriptors
  simp [List.map_map]

/-- C1: after every reconcile cycle (every updateMapVisualization call,
including the empty-visible-set case), the key set of the marker registry
equals the identity-key set of the activities selected visible for the current
state — no stale entry, no missing entry. -/
theorem registry_keys_match_visible_set (activities : List ProcessedActivity)
    (state : AppState) (clusteringEnabled : Bool) (registry : Registry)
    (cache : RecentCache) :
    registryKeys (updateMapVisualization activities state clusteringEnabled registry cache).2.1
      = ((selectVisibleActivities activities state).map createActivityKey).toFinset := by
  unfold updateMapVisualization
  by_cases hempty : (selectVisibleActivities activities state).isEmpty = true
  · rw [if_pos hempty]
    rw [List.isEmpty_iff] at hempty
    simp [hempty, registryKeys]
  · rw [if_neg hempty]
    by_cases hcluster : clusteringEnabled = true
    · simp only [hcluster, if_pos]
      unfold syncClusterGroup
      rw [registryKeys_removeStaleMarkers]
      rcases syncClusterGroup_fold_keys (getMarkerStyle state)
        (buildMarkerDescriptors state cache (selectVisibleActivities activities state)).1
        registry ∅ [] with ⟨hreg, hkeys⟩
      rw [hreg, hkeys]
      rcases syncLayerGroup_fold_keys (getMarkerStyle state)
        (buildMarkerDescriptors state cache (selectVisibleActivities activities state)).1
        registry ∅ with ⟨hreg2, hkeys2⟩
      rw [hreg2, hkeys2, buildMarkerDescriptors_keys]
      simp [Finset.union_inter_cancel_right]
    · simp only [Bool.not_eq_true] at hcluster
      simp only [hcluster, Bool.false_eq_true, if_false]
      unfold syncLayerGroup
      rw [registryKeys_removeStaleMarkers]
      rcases syncLayerGroup_fold_keys (getMarkerStyle state)
        (buildMarkerDescriptors state cache (selectVisibleActivities activities state)).1
        registry ∅ with ⟨hreg, hkeys⟩
      rw [hreg, hkeys, buildMarkerDescriptors_keys]
      simp [Finset.union_inter_cancel_right]

/-- Helper: the three scenario records carry pairwise distinct identity keys. -/
theorem scn_keys_pairwise_distinct :
    createActivityKey recA ≠ createActivityKey recB ∧
      createActivityKey recA ≠ createActivityKey recC ∧
      createActivityKey recB ≠ createActivityKey recC := by
  have h49 : toFixed5 (49 : ℚ) = 4900000 := by norm_num [toFixed5, round_eq]
  have h8 : toFixed5 (8 : ℚ) = 800000 := by norm_num [toFixed5, round_eq]
  refine ⟨?_, ?_, ?_⟩ <;>
    (simp only [createActivityKey, recA, recB, recC, ActivityType.str, scnStart, h49, h8]
     decide)

/-- C4 counterexample: the claimed cardinality min(N, number of visible records)
fails at window size 0 (JS slice(-0) returns the whole array, so one record
yields one key instead of zero) and on a visible list with duplicated identity
keys (two identical records at window 2 yield one key instead of two). -/
theorem recent_window_size_counterexample :
    (computeRecentActivityKeysPure 0 [recA]).card = 1 ∧
      min 0 [recA].length = 0 ∧
      (computeRecentActivityKeysPure 2 [recA, recA]).card = 1 ∧
      min 2 [recA, recA].length = 2 := by
  have h1 : [recA].mergeSort revealLE = [recA] := by simp
  have h2 : [recA, recA].mergeSort revealLE = [recA, recA] :=
    List.mergeSort_of_sorted (by simp [revealLE])
  refine ⟨?_, by simp, ?_, by simp⟩
  · rw [computeRecentActivityKeysPure]
    simp [h1, sliceNeg]
  · rw [computeRecentActivityKeysPure]
    simp [h2, sliceNeg]

/-- C4 amended: for every visible-record list whose identity keys are pairwise
distinct and every window size N ≥ 1, the recent-window classifier returns a
set of cardinality exactly min(N, number of visible records); and whenever
N ≥ the number of visible records, every visible record is classified recent. -/
theorem recent_window_size_bound (n : Nat) (visible : List ProcessedActivity)
    (hn : 1 ≤ n) (hnodup : (visible.map createActivityKey).Nodup) :
    (computeRecentActivityKeysPure n visible).card = min n visible.length ∧
      (visible.length ≤ n →
        ∀ a ∈ visible, createActivityKey a ∈ computeRecentActivityKeysPure n visible) := by
  have hperm : (visible.mergeSort revealLE).Perm visible := List.mergeSort_perm visible revealLE
  have hlen : (visible.mergeSort revealLE).length = visible.length := hperm.length_eq
  have hsortednodup : ((visible.mergeSort revealLE).map createActivityKey).Nodup :=
    ((hperm.map createActivityKey).nodup_iff).mpr hnodup
  have hslice : sliceNeg n (visible.mergeSort revealLE)
      = (visible.mergeSort revealLE).drop ((visible.mergeSort revealLE).length - n) := by
    unfold sliceNeg
    rw [if_neg (by omega)]
  constructor
  · rw [computeRecentActivityKeysPure, hslice]
    have hsub : (((visible.mergeSort revealLE).drop
        ((visible.mergeSort revealLE).length - n)).map createActivityKey).Sublist
        ((visible.mergeSort revealLE).map createActivityKey) :=
      ((visible.mergeSort revealLE).drop_sublist _).map createActivityKey
    have hnodup2 := hsortednodup.sublist hsub
    rw [List.toFinset_card_of_nodup hnodup2]
    simp only [List.length_map, List.length_drop]
    omega
  · intro hle a ha
    rw [computeRecentActivityKeysPure, hslice]
    have hdrop : (visible.mergeSort revealLE).length - n = 0 := by omega
    rw [hdrop, List.drop_zero]
    simp only [List.mem_toFinset, List.mem_map]
    exact ⟨a, (List.mem_mergeSort).mpr ha, rfl⟩

/-- Witness for C4 amended: two distinct-key records at window size 2 give a
recent set of cardinality min(2, 2) = 2, and both records classify recent. -/
theorem recent_window_size_bound_witness :
    (computeRecentActivityKeysPure 2 [recA, recB]).card = min 2 [recA, recB].length ∧
      createActivityKey recA ∈ computeRecentActivityKeysPure 2 [recA, recB] := by
  have hnodup : ([recA, recB].map createActivityKey).Nodup := by
    simp [scn_keys_pairwise_distinct.1]
  have h := recent_window_size_bound 2 [recA, recB] (by norm_num) hnodup
  exact ⟨h.1, h.2 (by simp) recA (by simp)⟩

/-- Helper: the index-decorated comparator of specStableSortByReveal agrees
pointwise with the library index tie-break comparator for the spec timestamp
order. -/
theorem enumLE_eq_lex (x y : ℕ × ProcessedActivity) :
    List.enumLE specRevealLE x y
      = decide (specRevealTimestamp x.2 < specRevealTimestamp y.2 ∨
          (specRevealTimestamp x.2 = specRevealTimestamp y.2 ∧ x.1 ≤ y.1)) := by
  simp only [List.enumLE, specRevealLE]
  rcases lt_trichotomy (specRevealTimestamp x.2) (specRevealTimestamp y.2) with h | h | h
  · rw [if_pos (by simp [h.le]), if_neg (by simp [h.not_le]), eq_comm, decide_eq_true_iff]
    exact Or.inl h
  · rw [if_pos (by simp [h.le]), if_pos (by simp [h.ge])]
    simp [h]
  · rw [if_neg (by simp [h.not_le]), eq_comm, decide_eq_false_iff_not]
    push_neg
    exact ⟨h.le, fun heq => absurd heq h.ne'⟩

/-- Helper: the stable sort the classifier performs with the code comparator is
the canonical stable sort by the spec reveal timestamp, provided every record
is well-formed for the dataset start (the code sorts by absolute epoch reveal
time, the spec by start-relative reveal time; the two differ by the constant
startDate * MS_PER_DAY). -/
theorem mergeSort_reveal_eq_specStableSort (startDate : Int)
    (visible : List ProcessedActivity) (hwf : ∀ a ∈ visible, WellFormedFor startDate a) :
    visible.mergeSort revealLE = specStableSortByReveal visible := by
  have hcomp : ∀ a ∈ visible, ∀ b ∈ visible, revealLE a b = specRevealLE a b := by
    intro a ha b hb
    rcases hwf a ha with ⟨hmsa, -, hdia⟩
    rcases hwf b hb with ⟨hmsb, -, hdib⟩
    simp only [revealLE, specRevealLE, getRevealTimestamp, specRevealTimestamp,
      hmsa, hmsb, hdia, hdib]
    rw [decide_eq_decide]
    push_cast
    constructor <;> intro h <;> nlinarith [h]
  have hcongr : visible.mergeSort revealLE = visible.mergeSort specRevealLE := by
    have := List.map_mergeSort (r := revealLE) (s := specRevealLE) (f := id)
      (l := visible) (by simpa using hcomp)
    simpa using this
  have henum : (visible.enum.mergeSort (List.enumLE specRevealLE)).map (fun p => p.2)
      = visible.mergeSort specRevealLE := List.mergeSort_enum
  have hlex : visible.enum.mergeSort (List.enumLE specRevealLE)
      = visible.enum.mergeSort (fun x y =>
          decide (specRevealTimestamp x.2 < specRevealTimestamp y.2 ∨
            (specRevealTimestamp x.2 = specRevealTimestamp y.2 ∧ x.1 ≤ y.1))) := by
    have := List.map_mergeSort (r := List.enumLE specRevealLE)
      (s := fun x y =>
        decide (specRevealTimestamp x.2 < specRevealTimestamp y.2 ∨
          (specRevealTimestamp x.2 = specRevealTimestamp y.2 ∧ x.1 ≤ y.1)))
      (f := id) (l := visible.enum)
      (by intro a _ b _; simpa using enumLE_eq_lex a b)
    simpa using this
  rw [hcongr, ← henum, hlex]
  rfl

/-- C5: the recent-window classifier returns exactly the identity keys of the
last N records of the visible list stably sorted ascending by the synthetic
reveal timestamp dayIndex * dayLengthMs + revealFraction * dayLengthMs, ties
kept in input order; stated for well-formed records (records dated on or after
the dataset start, as processActivities produces for the dataset date range)
and N ≥ 1 (the deployed window size is 80). -/
theorem classifyRecent_matches_spec (startDate : Int) (n : Nat)
    (visible : List ProcessedActivity) (hn : 1 ≤ n)
    (hwf : ∀ a ∈ visible, WellFormedFor startDate a) :
    visible.mergeSort revealLE = specStableSortByReveal visible ∧
      computeRecentActivityKeysPure n visible = specClassifyRecent n visible := by
  have hsort := mergeSort_reveal_eq_specStableSort startDate visible hwf
  refine ⟨hsort, ?_⟩
  rw [computeRecentActivityKeysPure, specClassifyRecent, hsort]
  have : sliceNeg n (specStableSortByReveal visible)
      = specTakeLast n (specStableSortByReveal visible) := by
    unfold sliceNeg specTakeLast
    rw [if_neg (by omega)]
  rw [this]

/-- Witness for C5: the scenario records are well-formed for the scenario start
day, and at the deployed window size the classifier output coincides with the
spec classification. -/
theorem classifyRecent_matches_spec_witness :
    computeRecentActivityKeysPure RECENT_MARKER_COUNT scnActivities
      = specClassifyRecent RECENT_MARKER_COUNT scnActivities :=
  (classifyRecent_matches_spec scnStart RECENT_MARKER_COUNT scnActivities
    (by norm_num [RECENT_MARKER_COUNT])
    (by
      intro a ha
      simp only [scnActivities, List.mem_cons, List.not_mem_nil, or_false] at ha
      rcases ha with h | h | h <;>
        (subst h
         refine ⟨rfl, by norm_num [scnStart, recA, recB, recC], by
           norm_num [scnStart, recA, recB, recC]⟩))).2

/-- C6: cache-invalidation correctness.  First: a call on the invalidated cache
(the state after invalidateRecentKeysCache, installed by every slider change
and filter change) always recomputes and returns the cache-free classification.
Second: on any cache whatsoever, the result is either the fresh cache-free
classification, or it is the cached set and the cache was populated with a
stored count equal to the current visible count (reuse happens only then).
Third and fourth: the slider-change and filter-change handlers produce results
that are independent of whatever cache was in place before the event, so a
backward scrub or filter change can never surface a stale recent set. -/
theorem recent_cache_equivalence :
    (∀ (n : Nat) (visible : List ProcessedActivity),
      (computeRecentActivityKeys n invalidatedCache visible).1
        = computeRecentActivityKeysPure n visible) ∧
    (∀ (n : Nat) (cache : RecentCache) (visible : List ProcessedActivity),
      (computeRecentActivityKeys n cache visible).1
          = computeRecentActivityKeysPure n visible ∨
        (cache.cachedRecentKeys = some ((computeRecentActivityKeys n cache visible).1) ∧
          cache.cachedVisibleCount = (visible.length : Int) ∧ visible ≠ [])) ∧
    (∀ (activities : List ProcessedActivity) (start : Int) (sliderValue : ℚ)
      (cs : ControllerState) (cache1 cache2 : RecentCache),
      handleSliderChange activities start sliderValue { cs with cache := cache1 }
        = handleSliderChange activities start sliderValue { cs with cache := cache2 }) ∧
    (∀ (activities : List ProcessedActivity) (filter : ActivityFilter)
      (cs : ControllerState) (cache1 cache2 : RecentCache),
      handleActivityFilterChange activities filter { cs with cache := cache1 }
        = handleActivityFilterChange activities filter { cs with cache := cache2 }) := by
  have hempty : ∀ n : Nat, computeRecentActivityKeysPure n [] = (∅ : Finset String) := by
    intro n
    rw [computeRecentActivityKeysPure]
    simp [sliceNeg]
  refine ⟨?_, ?_, ?_, ?_⟩
  · intro n visible
    rw [computeRecentActivityKeys]
    by_cases hv : visible.isEmpty = true
    · rw [if_pos hv]
      rw [List.isEmpty_iff] at hv
      simp [hv, hempty]
    · rw [if_neg hv]
      rfl
  · intro n cache visible
    rw [computeRecentActivityKeys]
    by_cases hv : visible.isEmpty = true
    · rw [if_pos hv]
      rw [List.isEmpty_iff] at hv
      simp [hv, hempty]
    · rw [if_neg hv]
      cases hkeys : cache.cachedRecentKeys with
      | none => exact Or.inl rfl
      | some keys =>
        dsimp only
        by_cases hcount : (visible.length : Int) = cache.cachedVisibleCount
        · rw [if_pos hcount]
          refine Or.inr ⟨rfl, hcount.symm, ?_⟩
          intro h
          rw [h] at hv
          exact hv rfl
        · rw [if_neg hcount]
          exact Or.inl rfl
  · intro activities start sliderValue cs cache1 cache2
    rfl
  · intro activities filter cs cache1 cache2
    rfl

/-- C8 counterexample: a record with the unrecognized category FLYER is dropped
by the transform, but no warning is logged — the console output of the run is
empty, contradicting the claimed drop-with-logged-warning behavior. -/
theorem transform_drops_without_warning_counterexample :
    (processFile (fun lat lng => (lat, lng)) true
        [⟨"FLYER", 8, 49, 20454, none⟩]).1 = [] ∧
      (processFile (fun lat lng => (lat, lng)) true
        [⟨"FLYER", 8, 49, 20454, none⟩]).2 = [] := by
  constructor <;> rfl

/-- C8 amended: the ingestion transform never throws (it is a total function of
its declared input shape), SILENTLY drops — without logging any warning — every
record whose coordinates are JS-falsy or whose category is unrecognized,
and produces exactly one output per remaining valid input in input order; the
in-app normalizer processActivities performs no validation at all and maps
every input record 1:1, preserving order. -/
theorem normalizer_drop_behavior (blur : ℚ → ℚ → ℚ × ℚ) (shouldBlur : Bool)
    (records : List ApiRecord) (jsSin : ℚ → ℚ) (activities : List Activity)
    (alreadyBlurred : Bool) (startDate : Int) :
    (processFile blur shouldBlur records).2 = [] ∧
      (∀ r : ApiRecord, (transformRecord blur shouldBlur r).1.isSome ↔
        ((normalizeType r.ty).isSome ∧ r.coordsLat ≠ 0 ∧ r.coordsLng ≠ 0)) ∧
      (processFile blur shouldBlur records).1
        = (records.filter (fun r => ((transformRecord blur shouldBlur r).1).isSome)).map
            (fun r => ((transformRecord blur shouldBlur r).1).getD ⟨0, .HOUSE, 0, 0, 0⟩) ∧
      (processActivities jsSin blur activities alreadyBlurred startDate).map
          ProcessedActivity.original = activities := by
  have hnolog : ∀ r : ApiRecord, (transformRecord blur shouldBlur r).2 = [] := by
    intro r
    rw [transformRecord]
    cases normalizeType r.ty with
    | none => rfl
    | some t =>
      dsimp only
      by_cases hco : r.coordsLat = 0 ∨ r.coordsLng = 0
      · rw [if_pos hco]
      · rw [if_neg hco]
  refine ⟨?_, ?_, ?_, ?_⟩
  · show (records.map (transformRecord blur shouldBlur)).foldl (fun acc p => acc ++ p.2) [] = []
    have : ∀ (l : List ApiRecord) (acc : List String),
        (l.map (transformRecord blur shouldBlur)).foldl (fun acc p => acc ++ p.2) acc = acc := by
      intro l
      induction l with
      | nil => intro acc; rfl
      | cons r rs ih =>
        intro acc
        simp only [List.map_cons, List.foldl_cons, hnolog r, List.append_nil]
        exact ih acc
    exact this records []
  · intro r
    rw [transformRecord]
    cases hty : normalizeType r.ty with
    | none => simp [hty]
    | some t =>
      dsimp only
      by_cases hco : r.coordsLat = 0 ∨ r.coordsLng = 0
      · rw [if_pos hco]
        simp only [Option.isSome_none, Bool.false_eq_true, false_iff, hty, Option.isSome_some]
        tauto
      · rw [if_neg hco]
        push_neg at hco
        simp [hty, hco.1, hco.2]
  · show (records.map (transformRecord blur shouldBlur)).filterMap (fun p => p.1) = _
    rw [List.filterMap_map]
    have : ∀ l : List ApiRecord,
        l.filterMap ((fun (p : Option Activity × List String) => p.1) ∘ transformRecord blur shouldBlur)
          = (l.filter (fun r => ((transformRecord blur shouldBlur r).1).isSome)).map
              (fun r => ((transformRecord blur shouldBlur r).1).getD ⟨0, .HOUSE, 0, 0, 0⟩) := by
      intro l
      induction l with
      | nil => rfl
      | cons r rs ih =>
        rw [List.filterMap_cons]
        cases hr : (transformRecord blur shouldBlur r).1 with
        | none =>
          simp only [Function.comp_apply, hr, List.filter_cons, Option.isSome_none,
            Bool.false_eq_true, if_false, ih]
        | some a =>
          simp only [Function.comp_apply, hr, List.filter_cons, Option.isSome_some, if_true,
            List.map_cons, ih, Option.getD_some]
    exact this records
  · rw [processActivities, List.map_map]
    have : (ProcessedActivity.original ∘ fun p : ℕ × Activity =>
        ({ date := p.2.date, ty := p.2.ty, lat := p.2.lat, lng := p.2.lng, count := p.2.count,
           blurredLat := (if alreadyBlurred then (p.2.lat, p.2.lng) else blur p.2.lat p.2.lng).1,
           blurredLng := (if alreadyBlurred then (p.2.lat, p.2.lng) else blur p.2.lat p.2.lng).2,
           dateObjMs := p.2.date * MS_PER_DAY,
           dayIndex := max 0 (round ((((p.2.date * MS_PER_DAY : Int) : ℚ)
             - ((startDate * MS_PER_DAY : Int) : ℚ)) / (MS_PER_DAY : ℚ))),
           revealFraction := seededRandom jsSin
             ((p.1 : ℚ) * 97 + p.2.lat * 1000 + p.2.lng * 1000) } : ProcessedActivity))
        = fun p : ℕ × Activity => p.2 := by
      funext p
      rfl
    rw [this, List.enum_map_snd]

/-- C9: when the advancing dayOffset reaches or exceeds the total day range,
the animate tick clamps dayOffset to the end of the range, performs exactly one
final recompute/render, stops playback (and requests no further frame),
schedules the restart timeout with the fixed 1200 ms pause, and that callback
resets dayOffset to 0 and resumes playing automatically, re-entering animate. -/
theorem clock_end_of_range_loop (totalDays : Int) (now later : ℚ) (s : ClockState)
    (cache : RecentCache) (hplay : s.isPlaying = true)
    (hend : s.dayOffset + (now - s.lastFrameTime) * (s.playbackSpeed * BASE_DAYS_PER_MS)
      ≥ (totalDays : ℚ)) :
    (animateTick totalDays now s).state.dayOffset = (totalDays : ℚ) ∧
      (animateTick totalDays now s).renderCount = 1 ∧
      (animateTick totalDays now s).state.isPlaying = false ∧
      (animateTick totalDays now s).restartTimeout = some RESTART_DELAY_MS ∧
      (animateTick totalDays now s).nextFrameRequested = false ∧
      (restartCallback later (animateTick totalDays now s).state cache).1.dayOffset = 0 ∧
      (restartCallback later (animateTick totalDays now s).state cache).1.isPlaying = true ∧
      (restartCallback later (animateTick totalDays now s).state cache).2.2.2 = true := by
  have htick : animateTick totalDays now s =
      AnimateResult.mk
        (stopPlaybackState
          { s with
            lastFrameTime := now
            dayOffset := (totalDays : ℚ)
            currentDate := s.startDate + totalDays })
        1 (some RESTART_DELAY_MS) false := by
    rw [animateTick, hplay]
    simp only [Bool.not_true, Bool.false_eq_true, if_false]
    rw [if_pos hend]
  rw [htick]
  exact ⟨rfl, rfl, rfl, rfl, rfl, rfl, rfl, rfl⟩

/-- Witness for C9: a playing clock at dayOffset 60 with speed 1, advanced by an
800 ms frame over a 61-day range, hits the end and loops back to offset 0,
playing. -/
theorem clock_end_of_range_loop_witness :
    (animateTick 61 800 ⟨20454, 20514, 60, true, 1, false, 0, 1199⟩).state.dayOffset = (61 : ℚ) ∧
      (animateTick 61 800 ⟨20454, 20514, 60, true, 1, false, 0, 1199⟩).state.isPlaying = false ∧
      (restartCallback 2000 (animateTick 61 800
        ⟨20454, 20514, 60, true, 1, false, 0, 1199⟩).state invalidatedCache).1.dayOffset = 0 ∧
      (restartCallback 2000 (animateTick 61 800
        ⟨20454, 20514, 60, true, 1, false, 0, 1199⟩).state invalidatedCache).1.isPlaying = true := by
  have h := clock_end_of_range_loop 61 800 2000 ⟨20454, 20514, 60, true, 1, false, 0, 1199⟩
    invalidatedCache rfl (by norm_num [BASE_DAYS_PER_MS])
  exact ⟨h.1, h.2.2.1, h.2.2.2.2.2.1, h.2.2.2.2.2.2.1⟩

/-- C10: the pipeline is deterministic.  The reveal fraction is a pure function
of the list position and the coordinates alone — two records sharing position
and coordinates receive identical reveal fractions — and a full replay of the
pipeline over the same dataset at the same day offsets from a fresh initial
state yields the same trace of visible sets and reconciled registries (with
their recent/cumulative classifications). -/
theorem pipeline_deterministic :
    (∀ (jsSin : ℚ → ℚ) (idx : ℕ) (a b : Activity), a.lat = b.lat → a.lng = b.lng →
      seededRandom jsSin ((idx : ℚ) * 97 + a.lat * 1000 + a.lng * 1000)
        = seededRandom jsSin ((idx : ℚ) * 97 + b.lat * 1000 + b.lng * 1000)) ∧
      (∀ (jsSin : ℚ → ℚ) (blur : ℚ → ℚ → ℚ × ℚ) (raw : List Activity)
        (alreadyBlurred : Bool) (start : Int) (initApp : AppState) (clustering : Bool)
        (offsets : List ℚ),
        replayPipeline jsSin blur raw alreadyBlurred start initApp clustering offsets
          = replayPipeline jsSin blur raw alreadyBlurred start initApp clustering offsets) :=
  ⟨fun _ _ _ _ hlat hlng => by rw [hlat, hlng], fun _ _ _ _ _ _ _ _ => rfl⟩

/-- Witness for C10: records A and B of the scenario share coordinates, so at
any list position they receive the same reveal fraction. -/
theorem pipeline_deterministic_witness :
    seededRandom (fun q => q)
        ((3 : ℕ) * 97 + recA.original.lat * 1000 + recA.original.lng * 1000)
      = seededRandom (fun q => q)
        ((3 : ℕ) * 97 + recB.original.lat * 1000 + recB.original.lng * 1000) :=
  pipeline_deterministic.1 (fun q => q) 3 recA.original recB.original rfl rfl

end CampaignViz
